import Mathlib

/-!
Verification of the hybrid scorer of `src/hybrid_model.py`
(`HybridRecommendationSystem_Custom`).

Embedding notes:
* Python float scores are modelled as `Rat` (the spec treats scores as
  unconstrained real numbers; the code performs only `*` and `+`).
* A sub-scorer's `predict` can raise an arbitrary exception; this is
  modelled as `Except ε` with an abstract error type `ε`.
* `cf_model.predict(user_id, item_id)` returns an object whose `.est`
  attribute holds the score; this is modelled by the structure
  `CFPrediction`.  `cb_model.predict` returns the score directly.
* An unset collaborator (`cf_model=None` / `cb_model=None`) is `none`.
* Python's `sorted(_, key=lambda x: x[1], reverse=True)` is a stable sort
  placing larger keys first; it is modelled by `List.mergeSort` with the
  boolean relation `fun a b => b.2 ≤ a.2`.
* The Python slice `xs[:top_n]` for an arbitrary integer `top_n` is
  modelled by `pySliceTo`: for `top_n ≥ 0` it takes the first `top_n`
  elements, for `top_n < 0` it removes the last `|top_n|` elements
  (clamping at the empty list).
* The methods never assign to `self`; the stateful method-call view is
  captured by `predictCall` / `recommendCall`, which return the result
  together with the object state after the call.
-/

/-- The object returned by a collaborative-filtering model's `predict`;
the code reads its `est` attribute. -/
structure CFPrediction where
  est : Rat
deriving DecidableEq, Repr

/-- State of a `HybridRecommendationSystem_Custom` object:
optional collaborative-filtering model, optional content-based model,
and the weight pair `weights` (default `(0.5, 0.5)` in `__init__`).
A model is modelled by its `predict` method, which may fail with an
exception of type `ε`. -/
structure HybridRecommendationSystem_Custom (U I ε : Type) where
  cf_model : Option (U → I → Except ε CFPrediction)
  cb_model : Option (U → I → Except ε Rat)
  weights : Rat × Rat := (1/2, 1/2)

namespace HybridRecommendationSystem_Custom

variable {U I ε : Type}

/-- `predict(self, user_id, item_id)`:
`score_cf, score_cb = 0, 0`; if `self.cf_model` is set,
`score_cf = self.cf_model.predict(user_id, item_id).est`; if
`self.cb_model` is set, `score_cb = self.cb_model.predict(user_id, item_id)`;
return `self.weights[0] * score_cf + self.weights[1] * score_cb`.
An exception from either sub-scorer aborts the method (propagates). -/
def predict (m : HybridRecommendationSystem_Custom U I ε) (user_id : U)
    (item_id : I) : Except ε Rat := do
  let score_cf : Rat ←
    match m.cf_model with
    | some cf => do
        let p ← cf user_id item_id
        pure p.est
    | none => pure 0
  let score_cb : Rat ←
    match m.cb_model with
    | some cb => cb user_id item_id
    | none => pure 0
  pure (m.weights.1 * score_cf + m.weights.2 * score_cb)

/-- The `scored_items` list built by the loop in `recommend`: for each
`item_id` in `items` in order, append `(item_id, score)` when
`self.predict(user_id, item_id)` succeeds; on an exception, `continue`
(the item is dropped). -/
def scored_items (m : HybridRecommendationSystem_Custom U I ε) (user_id : U)
    (items : List I) : List (I × Rat) :=
  items.filterMap fun item_id =>
    match m.predict user_id item_id with
    | Except.ok score => some (item_id, score)
    | Except.error _ => none

/-- `sorted(scored_items, key=lambda x: x[1], reverse=True)`: a stable
sort placing pairs with larger second component first. -/
def sortByScoreDesc (l : List (I × Rat)) : List (I × Rat) :=
  l.mergeSort fun a b => decide (b.2 ≤ a.2)

/-- The Python slice `xs[:n]` for an integer `n`. -/
def pySliceTo (l : List α) (n : Int) : List α :=
  if 0 ≤ n then l.take n.toNat else l.take ((l.length : Int) + n).toNat

/-- `recommend(self, user_id, items, top_n=10)`: build `scored_items`
by the try/except loop, then return
`sorted(scored_items, key=lambda x: x[1], reverse=True)[:top_n]`. -/
def recommend (m : HybridRecommendationSystem_Custom U I ε) (user_id : U)
    (items : List I) (top_n : Int := 10) : List (I × Rat) :=
  pySliceTo (sortByScoreDesc (m.scored_items user_id items)) top_n

/-- The method call `self.predict(user_id, item_id)` viewed as acting on
the object state: the body contains no assignment to `self`, so the
state after the call is the state before it. -/
def predictCall (m : HybridRecommendationSystem_Custom U I ε) (user_id : U)
    (item_id : I) : Except ε Rat × HybridRecommendationSystem_Custom U I ε :=
  (m.predict user_id item_id, m)

/-- The method call `self.recommend(user_id, items, top_n)` viewed as
acting on the object state: the body contains no assignment to `self`,
so the state after the call is the state before it. -/
def recommendCall (m : HybridRecommendationSystem_Custom U I ε) (user_id : U)
    (items : List I) (top_n : Int := 10) :
    List (I × Rat) × HybridRecommendationSystem_Custom U I ε :=
  (m.recommend user_id items top_n, m)

end HybridRecommendationSystem_Custom

open HybridRecommendationSystem_Custom

/-- C1: when both sub-scorers succeed, `predict` returns exactly
`w_cf * score_cf + w_cb * score_cb`; an unset sub-scorer contributes
exactly `0`, so with only a collaborative-filtering sub-scorer the
result is `w_cf * cf_score` for every item. -/
theorem predict_weighted_sum {U I ε : Type}
    (m : HybridRecommendationSystem_Custom U I ε) (u : U) (i : I)
    (cf : U → I → Except ε CFPrediction) (s_cf : Rat) :
    (∀ cb s_cb, m.cf_model = some cf → cf u i = Except.ok ⟨s_cf⟩ →
      m.cb_model = some cb → cb u i = Except.ok s_cb →
      m.predict u i = Except.ok (m.weights.1 * s_cf + m.weights.2 * s_cb)) ∧
    (m.cf_model = some cf → cf u i = Except.ok ⟨s_cf⟩ → m.cb_model = none →
      m.predict u i = Except.ok (m.weights.1 * s_cf)) := by
  constructor
  · intro cb s_cb hcf hcfv hcb hcbv
    simp [HybridRecommendationSystem_Custom.predict, hcf, hcfv, hcb, hcbv, bind, Except.bind, pure, Except.pure]
  · intro hcf hcfv hcb
    simp [HybridRecommendationSystem_Custom.predict, hcf, hcfv, hcb, bind, Except.bind, pure, Except.pure]

/-- Witness for C1 at a concrete scorer: weights `(0.3, 0.7)`,
`cf = 2`, `cb = 5` gives `0.3 * 2 + 0.7 * 5 = 4.1`; with the
content-based model removed the result is `0.3 * 2 = 0.6`. -/
theorem predict_weighted_sum_witness :
    (HybridRecommendationSystem_Custom.mk (U := Nat) (I := Nat) (ε := Unit)
        (some fun _ _ => Except.ok ⟨2⟩) (some fun _ _ => Except.ok 5)
        (3/10, 7/10)).predict 0 0 = Except.ok (41/10) ∧
    (HybridRecommendationSystem_Custom.mk (U := Nat) (I := Nat) (ε := Unit)
        (some fun _ _ => Except.ok ⟨2⟩) none
        (3/10, 7/10)).predict 0 0 = Except.ok (6/10) := by
  constructor
  · have h := (predict_weighted_sum
      (HybridRecommendationSystem_Custom.mk (U := Nat) (I := Nat) (ε := Unit)
        (some fun _ _ => Except.ok ⟨2⟩) (some fun _ _ => Except.ok 5)
        (3/10, 7/10)) 0 0 (fun _ _ => Except.ok ⟨2⟩) 2).1
      (fun _ _ => Except.ok 5) 5 rfl rfl rfl rfl
    rw [h]; norm_num
  · have h := (predict_weighted_sum
      (HybridRecommendationSystem_Custom.mk (U := Nat) (I := Nat) (ε := Unit)
        (some fun _ _ => Except.ok ⟨2⟩) none
        (3/10, 7/10)) 0 0 (fun _ _ => Except.ok ⟨2⟩) 2).2 rfl rfl rfl
    rw [h]; norm_num

/-- C5: a failure signalled by a configured sub-scorer during `predict`
propagates to the caller: a failing collaborative-filtering model makes
`predict` fail with the same error, and a failing content-based model
makes `predict` fail with the same error whenever control reaches it
(the collaborative-filtering model is absent or succeeded).  Nothing is
caught at this level. -/
theorem predict_propagates_failure {U I ε : Type}
    (m : HybridRecommendationSystem_Custom U I ε) (u : U) (i : I) (e : ε) :
    (∀ cf, m.cf_model = some cf → cf u i = Except.error e →
      m.predict u i = Except.error e) ∧
    (∀ cb, m.cb_model = some cb → cb u i = Except.error e →
      (m.cf_model = none ∨ ∃ cf p, m.cf_model = some cf ∧ cf u i = Except.ok p) →
      m.predict u i = Except.error e) := by
  constructor
  · intro cf hcf hv
    simp [HybridRecommendationSystem_Custom.predict, hcf, hv, bind, Except.bind]
  · intro cb hcb hv hcf
    rcases hcf with h | ⟨cf, p, hcf, hok⟩
    · simp [HybridRecommendationSystem_Custom.predict, hcb, hv, h,
        bind, Except.bind, pure, Except.pure]
    · simp [HybridRecommendationSystem_Custom.predict, hcb, hv, hcf, hok,
        bind, Except.bind, pure, Except.pure]

/-- Witness for C5: a scorer whose collaborative-filtering model fails
propagates the error, and one whose content-based model fails (with the
collaborative-filtering model succeeding) propagates the error. -/
theorem predict_propagates_failure_witness :
    (HybridRecommendationSystem_Custom.mk (U := Nat) (I := Nat) (ε := Nat)
        (some fun _ _ => Except.error 42) none (1/2, 1/2)).predict 0 0
      = Except.error 42 ∧
    (HybridRecommendationSystem_Custom.mk (U := Nat) (I := Nat) (ε := Nat)
        (some fun _ _ => Except.ok ⟨3⟩)
        (some fun _ _ => Except.error 7) (1/2, 1/2)).predict 0 0
      = Except.error 7 := by
  constructor
  · exact (predict_propagates_failure
      (HybridRecommendationSystem_Custom.mk (U := Nat) (I := Nat) (ε := Nat)
        (some fun _ _ => Except.error 42) none (1/2, 1/2)) 0 0 42).1
      (fun _ _ => Except.error 42) rfl rfl
  · exact (predict_propagates_failure
      (HybridRecommendationSystem_Custom.mk (U := Nat) (I := Nat) (ε := Nat)
        (some fun _ _ => Except.ok ⟨3⟩)
        (some fun _ _ => Except.error 7) (1/2, 1/2)) 0 0 7).2
      (fun _ _ => Except.error 7) rfl rfl
      (Or.inr ⟨fun _ _ => Except.ok ⟨3⟩, ⟨3⟩, rfl, rfl⟩)

/-- With no sub-scorer configured, `predict` always succeeds with 0. -/
lemma predict_none_none {U I ε : Type}
    (m : HybridRecommendationSystem_Custom U I ε) (u : U) (i : I)
    (hcf : m.cf_model = none) (hcb : m.cb_model = none) :
    m.predict u i = Except.ok 0 := by
  simp [HybridRecommendationSystem_Custom.predict, hcf, hcb,
    bind, Except.bind, pure, Except.pure]

/-- C6: with neither sub-scorer configured, `recommend` returns the
first `top_n` candidates in input order, each paired with score 0
(all scores tie at 0 and the stable sort keeps input order). -/
theorem recommend_no_models {U I ε : Type}
    (m : HybridRecommendationSystem_Custom U I ε) (u : U)
    (items : List I) (n : Int)
    (hcf : m.cf_model = none) (hcb : m.cb_model = none) (hn : 0 ≤ n) :
    m.recommend u items n = (items.map fun i => (i, (0 : Rat))).take n.toNat := by
  have hs : m.scored_items u items = items.map fun i => (i, (0 : Rat)) := by
    unfold HybridRecommendationSystem_Custom.scored_items
    rw [← List.filterMap_eq_map]
    apply List.filterMap_congr
    intro i _
    rw [predict_none_none m u i hcf hcb]
    rfl
  have hsort : sortByScoreDesc (items.map fun i => (i, (0 : Rat)))
      = items.map fun i => (i, (0 : Rat)) := by
    apply List.mergeSort_of_sorted
    apply List.pairwise_of_forall_mem_list
    intro a ha b hb
    simp only [List.mem_map] at ha hb
    obtain ⟨_, _, rfl⟩ := ha
    obtain ⟨_, _, rfl⟩ := hb
    simp
  unfold HybridRecommendationSystem_Custom.recommend
  rw [hs, hsort, pySliceTo, if_pos hn]

/-- Witness for C6, the spec's concrete case: `items = [5,3,9,1]`,
`top_n = 3` yields item order `[5,3,9]`, each with score 0. -/
theorem recommend_no_models_witness :
    (HybridRecommendationSystem_Custom.mk (U := Nat) (I := Nat) (ε := Unit)
        none none (1/2, 1/2)).recommend 0 [5, 3, 9, 1] 3
      = [(5, 0), (3, 0), (9, 0)] := by
  rw [recommend_no_models
    (HybridRecommendationSystem_Custom.mk (U := Nat) (I := Nat) (ε := Unit)
      none none (1/2, 1/2)) 0 [5, 3, 9, 1] 3 rfl rfl (by decide)]
  rfl

/-- C7: for `top_n ≥ 0`, `recommend` returns at most `top_n` entries,
and `top_n = 0` yields the empty list. -/
theorem recommend_length_le {U I ε : Type}
    (m : HybridRecommendationSystem_Custom U I ε) (u : U)
    (items : List I) (n : Int) (hn : 0 ≤ n) :
    ((m.recommend u items n).length : Int) ≤ n ∧
    m.recommend u items 0 = [] := by
  constructor
  · unfold HybridRecommendationSystem_Custom.recommend pySliceTo
    rw [if_pos hn]
    calc ((List.take n.toNat
            (sortByScoreDesc (m.scored_items u items))).length : Int)
        ≤ (n.toNat : Int) := by
          exact_mod_cast List.length_take_le _ _
      _ = n := Int.toNat_of_nonneg hn
  · unfold HybridRecommendationSystem_Custom.recommend pySliceTo
    simp

/-- Witness for C7 at a concrete scorer and `top_n = 2` over three
candidates: the output has at most 2 entries and `top_n = 0` yields
the empty list. -/
theorem recommend_length_le_witness :
    (((HybridRecommendationSystem_Custom.mk (U := Nat) (I := Nat) (ε := Unit)
        none (some fun _ i => Except.ok i) (1/2, 1/2)).recommend
          0 [1, 2, 3] 2).length : Int) ≤ 2 ∧
    (HybridRecommendationSystem_Custom.mk (U := Nat) (I := Nat) (ε := Unit)
        none (some fun _ i => Except.ok i) (1/2, 1/2)).recommend
          0 [1, 2, 3] 0 = [] :=
  recommend_length_le
    (HybridRecommendationSystem_Custom.mk (U := Nat) (I := Nat) (ε := Unit)
      none (some fun _ i => Except.ok i) (1/2, 1/2)) 0 [1, 2, 3] 2
    (by decide)

/-- The descending-by-score boolean relation used by the sort is
transitive. -/
lemma descBy_trans {I : Type} (a b c : I × Rat)
    (h₁ : decide (b.2 ≤ a.2) = true) (h₂ : decide (c.2 ≤ b.2) = true) :
    decide (c.2 ≤ a.2) = true := by
  simp only [decide_eq_true_eq] at h₁ h₂ ⊢
  exact le_trans h₂ h₁

/-- The descending-by-score boolean relation used by the sort is total. -/
lemma descBy_total {I : Type} (a b : I × Rat) :
    (decide (b.2 ≤ a.2) || decide (a.2 ≤ b.2)) = true := by
  rcases le_total b.2 a.2 with h | h <;> simp [h]

/-- C2: for `top_n ≥ 0`, `recommend` returns the surviving
`(item, score)` pairs sorted by combined score descending and truncated
to the first `top_n` entries: the sorted list is a permutation of the
surviving pairs, is pairwise descending in score, and the output is its
`top_n`-prefix; if fewer than `top_n` items survive, the whole sorted
survivor list is returned (no padding, no error). -/
theorem recommend_sorted_truncated {U I ε : Type}
    (m : HybridRecommendationSystem_Custom U I ε) (u : U)
    (items : List I) (n : Int) (hn : 0 ≤ n) :
    List.Perm (sortByScoreDesc (m.scored_items u items))
      (m.scored_items u items) ∧
    (sortByScoreDesc (m.scored_items u items)).Pairwise
      (fun a b : I × Rat => b.2 ≤ a.2) ∧
    m.recommend u items n
      = (sortByScoreDesc (m.scored_items u items)).take n.toNat ∧
    (((m.scored_items u items).length : Int) ≤ n →
      m.recommend u items n = sortByScoreDesc (m.scored_items u items)) := by
  refine ⟨List.mergeSort_perm _ _, ?_, ?_, ?_⟩
  · exact (List.sorted_mergeSort descBy_trans descBy_total _).imp
      (fun h => of_decide_eq_true h)
  · unfold HybridRecommendationSystem_Custom.recommend pySliceTo
    rw [if_pos hn]
  · intro hlen
    unfold HybridRecommendationSystem_Custom.recommend pySliceTo
    rw [if_pos hn]
    apply List.take_of_length_le
    rw [sortByScoreDesc, (List.mergeSort_perm _ _).length_eq]
    calc (m.scored_items u items).length
        = ((m.scored_items u items).length : Int).toNat := rfl
      _ ≤ n.toNat := Int.toNat_le_toNat hlen

/-- Witness for C2 at a concrete scorer (content-based identity scores,
weights `(0, 1)`), candidates `[1, 3, 2]`, `top_n = 2`. -/
theorem recommend_sorted_truncated_witness :
    List.Perm
      (sortByScoreDesc ((HybridRecommendationSystem_Custom.mk
        (U := Nat) (I := Nat) (ε := Unit)
        none (some fun _ i => Except.ok i) (0, 1)).scored_items 0 [1, 3, 2]))
      ((HybridRecommendationSystem_Custom.mk
        (U := Nat) (I := Nat) (ε := Unit)
        none (some fun _ i => Except.ok i) (0, 1)).scored_items 0 [1, 3, 2]) ∧
    (sortByScoreDesc ((HybridRecommendationSystem_Custom.mk
        (U := Nat) (I := Nat) (ε := Unit)
        none (some fun _ i => Except.ok i) (0, 1)).scored_items 0 [1, 3, 2])).Pairwise
      (fun a b : Nat × Rat => b.2 ≤ a.2) ∧
    (HybridRecommendationSystem_Custom.mk
        (U := Nat) (I := Nat) (ε := Unit)
        none (some fun _ i => Except.ok i) (0, 1)).recommend 0 [1, 3, 2] 2
      = (sortByScoreDesc ((HybridRecommendationSystem_Custom.mk
        (U := Nat) (I := Nat) (ε := Unit)
        none (some fun _ i => Except.ok i) (0, 1)).scored_items 0 [1, 3, 2])).take 2 ∧
    ((((HybridRecommendationSystem_Custom.mk
        (U := Nat) (I := Nat) (ε := Unit)
        none (some fun _ i => Except.ok i) (0, 1)).scored_items 0 [1, 3, 2]).length : Int) ≤ 2 →
      (HybridRecommendationSystem_Custom.mk
        (U := Nat) (I := Nat) (ε := Unit)
        none (some fun _ i => Except.ok i) (0, 1)).recommend 0 [1, 3, 2] 2
        = sortByScoreDesc ((HybridRecommendationSystem_Custom.mk
        (U := Nat) (I := Nat) (ε := Unit)
        none (some fun _ i => Except.ok i) (0, 1)).scored_items 0 [1, 3, 2])) :=
  recommend_sorted_truncated
    (HybridRecommendationSystem_Custom.mk (U := Nat) (I := Nat) (ε := Unit)
      none (some fun _ i => Except.ok i) (0, 1)) 0 [1, 3, 2] 2 (by decide)

/-- C3: an exception while scoring one candidate drops exactly that
candidate and the loop continues with the rest, so `recommend` on a
candidate list containing the failing item equals `recommend` on the
list with that item removed; and if every candidate fails, the result
is the empty list (no aggregate error — `recommend` is total). -/
theorem recommend_drops_failed {U I ε : Type}
    (m : HybridRecommendationSystem_Custom U I ε) (u : U) (i : I)
    (l₁ l₂ : List I) (n : Int) (e : ε)
    (h : m.predict u i = Except.error e) :
    m.recommend u (l₁ ++ i :: l₂) n = m.recommend u (l₁ ++ l₂) n ∧
    (∀ l : List I, (∀ j ∈ l, ∃ e₀ : ε, m.predict u j = Except.error e₀) →
      m.recommend u l n = []) := by
  constructor
  · have hs : m.scored_items u (l₁ ++ i :: l₂) = m.scored_items u (l₁ ++ l₂) := by
      unfold HybridRecommendationSystem_Custom.scored_items
      rw [List.filterMap_append, List.filterMap_append, List.filterMap_cons, h]
    unfold HybridRecommendationSystem_Custom.recommend
    rw [hs]
  · intro l hl
    have hs : m.scored_items u l = [] := by
      unfold HybridRecommendationSystem_Custom.scored_items
      rw [List.filterMap_eq_nil_iff]
      intro j hj
      obtain ⟨e₀, he₀⟩ := hl j hj
      rw [he₀]
    unfold HybridRecommendationSystem_Custom.recommend
    rw [hs]
    unfold sortByScoreDesc pySliceTo
    simp

/-- Witness for C3, the spec's concrete case: scoring item 7 raises,
items 2 and 4 score `0.9` and `0.4`; `recommend(user,[7,2,4],3)` equals
`recommend(user,[2,4],3)`, which is `[(2, 0.9), (4, 0.4)]`, and a list
of all-failing candidates yields `[]`. -/
theorem recommend_drops_failed_witness :
    (HybridRecommendationSystem_Custom.mk (U := Nat) (I := Nat) (ε := Unit)
        (some fun _ i => if i = 2 then Except.ok ⟨9/10⟩
          else if i = 4 then Except.ok ⟨2/5⟩ else Except.error ())
        none (1, 1/2)).recommend 0 [7, 2, 4] 3
      = (HybridRecommendationSystem_Custom.mk (U := Nat) (I := Nat) (ε := Unit)
        (some fun _ i => if i = 2 then Except.ok ⟨9/10⟩
          else if i = 4 then Except.ok ⟨2/5⟩ else Except.error ())
        none (1, 1/2)).recommend 0 [2, 4] 3 ∧
    (HybridRecommendationSystem_Custom.mk (U := Nat) (I := Nat) (ε := Unit)
        (some fun _ i => if i = 2 then Except.ok ⟨9/10⟩
          else if i = 4 then Except.ok ⟨2/5⟩ else Except.error ())
        none (1, 1/2)).recommend 0 [2, 4] 3 = [(2, 9/10), (4, 2/5)] ∧
    (HybridRecommendationSystem_Custom.mk (U := Nat) (I := Nat) (ε := Unit)
        (some fun _ i => if i = 2 then Except.ok ⟨9/10⟩
          else if i = 4 then Except.ok ⟨2/5⟩ else Except.error ())
        none (1, 1/2)).recommend 0 [7, 7, 7] 3 = [] := by
  have h := recommend_drops_failed
    (HybridRecommendationSystem_Custom.mk (U := Nat) (I := Nat) (ε := Unit)
      (some fun _ i => if i = 2 then Except.ok ⟨9/10⟩
        else if i = 4 then Except.ok ⟨2/5⟩ else Except.error ())
      none (1, 1/2)) 0 7 [] [2, 4] 3 ()
    (by simp [HybridRecommendationSystem_Custom.predict, bind, Except.bind])
  refine ⟨h.1, ?_, h.2 [7, 7, 7] ?_⟩
  · unfold HybridRecommendationSystem_Custom.recommend
      HybridRecommendationSystem_Custom.scored_items
      HybridRecommendationSystem_Custom.predict sortByScoreDesc pySliceTo
    simp [bind, Except.bind, pure, Except.pure, List.mergeSort, List.splitInTwo,
      List.merge, List.filterMap]
    norm_num
  · intro j hj
    refine ⟨(), ?_⟩
    simp only [List.mem_cons, List.not_mem_nil, or_false] at hj
    rcases hj with rfl | rfl | rfl <;>
      simp [HybridRecommendationSystem_Custom.predict, bind, Except.bind]

/-- C4: the sort in `recommend` is stable with respect to the order
candidates were scored: if `i₁` precedes `i₂` in the candidate list and
both score successfully with equal combined scores, then `(i₁, s)` still
precedes `(i₂, s)` in the sorted survivor list, of which the returned
list is a prefix. -/
theorem recommend_sort_stable {U I ε : Type}
    (m : HybridRecommendationSystem_Custom U I ε) (u : U) (i₁ i₂ : I)
    (s : Rat) (items : List I) (n : Int)
    (hsub : List.Sublist [i₁, i₂] items)
    (h₁ : m.predict u i₁ = Except.ok s)
    (h₂ : m.predict u i₂ = Except.ok s) :
    List.Sublist [(i₁, s), (i₂, s)]
      (sortByScoreDesc (m.scored_items u items)) ∧
    List.IsPrefix (m.recommend u items n)
      (sortByScoreDesc (m.scored_items u items)) := by
  constructor
  · unfold sortByScoreDesc
    apply List.sublist_mergeSort descBy_trans descBy_total
    · simp [List.pairwise_cons]
    · have hfm := hsub.filterMap fun item_id =>
        match m.predict u item_id with
        | Except.ok score => some (item_id, score)
        | Except.error _ => none
      rw [List.filterMap_cons, List.filterMap_cons, h₁, h₂] at hfm
      exact hfm
  · unfold HybridRecommendationSystem_Custom.recommend pySliceTo
    split
    · exact List.take_prefix _ _
    · exact List.take_prefix _ _

/-- Witness for C4: candidates `[1, 2, 3]` where items 1 and 2 tie at
score 1 and item 3 scores 5: `(1, 1)` still precedes `(2, 1)` in the
sorted list, and the `top_n = 2` output is a prefix of that list. -/
theorem recommend_sort_stable_witness :
    List.Sublist [((1 : Nat), (1 : Rat)), (2, 1)]
      (sortByScoreDesc ((HybridRecommendationSystem_Custom.mk
        (U := Nat) (I := Nat) (ε := Unit)
        none (some fun _ i => Except.ok (if i = 3 then 5 else 1))
        (0, 1)).scored_items 0 [1, 2, 3])) ∧
    List.IsPrefix ((HybridRecommendationSystem_Custom.mk
        (U := Nat) (I := Nat) (ε := Unit)
        none (some fun _ i => Except.ok (if i = 3 then 5 else 1))
        (0, 1)).recommend 0 [1, 2, 3] 2)
      (sortByScoreDesc ((HybridRecommendationSystem_Custom.mk
        (U := Nat) (I := Nat) (ε := Unit)
        none (some fun _ i => Except.ok (if i = 3 then 5 else 1))
        (0, 1)).scored_items 0 [1, 2, 3])) := by
  apply recommend_sort_stable
  · exact List.Sublist.cons₂ 1 (List.Sublist.cons₂ 2 (List.nil_sublist [3]))
  · simp [HybridRecommendationSystem_Custom.predict, bind, Except.bind,
      pure, Except.pure]
  · simp [HybridRecommendationSystem_Custom.predict, bind, Except.bind,
      pure, Except.pure]

/-- C8: neither `predict` nor `recommend` mutates the scorer's state:
the object after either call equals the object before it (so the weight
pair and both sub-scorer references are unchanged), and a repeated
`recommend` call with identical inputs from the post-call state returns
the identical output. -/
theorem scorer_state_unchanged {U I ε : Type}
    (m : HybridRecommendationSystem_Custom U I ε) (u : U) (i : I)
    (items : List I) (n : Int) :
    (m.predictCall u i).2 = m ∧
    (m.recommendCall u items n).2 = m ∧
    (m.recommendCall u items n).2.weights = m.weights ∧
    (m.recommendCall u items n).2.cf_model = m.cf_model ∧
    (m.recommendCall u items n).2.cb_model = m.cb_model ∧
    ((m.recommendCall u items n).2.recommendCall u items n).1
      = (m.recommendCall u items n).1 :=
  ⟨rfl, rfl, rfl, rfl, rfl, rfl⟩

/-- The Python slice `xs[:n]` always yields a sublist of `xs`
(both branches are a `take`). -/
lemma pySliceTo_sublist {α : Type} (l : List α) (n : Int) :
    List.Sublist (pySliceTo l n) l := by
  unfold pySliceTo
  split
  · exact List.take_sublist _ _
  · exact List.take_sublist _ _

/-- C9: `recommend` does not deduplicate candidates: if item `i` occurs
`k` times among the candidates and scores successfully with score `s`,
the pair `(i, s)` occurs exactly `k` times in the scored list and in its
sorted version, and at most `k` times in the returned top-N. -/
theorem recommend_no_dedup {U I ε : Type} [DecidableEq I]
    (m : HybridRecommendationSystem_Custom U I ε) (u : U) (i : I) (s : Rat)
    (items : List I) (n : Int)
    (h : m.predict u i = Except.ok s) :
    (m.scored_items u items).count (i, s) = items.count i ∧
    (sortByScoreDesc (m.scored_items u items)).count (i, s)
      = items.count i ∧
    (m.recommend u items n).count (i, s) ≤ items.count i := by
  have key : (m.scored_items u items).count (i, s) = items.count i := by
    unfold HybridRecommendationSystem_Custom.scored_items
    rw [List.count_filterMap, List.count_eq_countP]
    apply List.countP_congr
    intro a _
    by_cases ha : a = i
    · subst ha
      rw [h]
      simp
    · cases hp : m.predict u a with
      | ok s₀ => simp [hp, Prod.ext_iff, ha]
      | error e => simp [hp, ha]
  have keySorted : (sortByScoreDesc (m.scored_items u items)).count (i, s)
      = items.count i := by
    rw [sortByScoreDesc]
    calc List.count (i, s)
          ((m.scored_items u items).mergeSort fun a b => decide (b.2 ≤ a.2))
        = (m.scored_items u items).count (i, s) := by
          rw [List.count_eq_countP, List.count_eq_countP]
          exact (List.mergeSort_perm _ _).countP_eq _
      _ = items.count i := key
  refine ⟨key, keySorted, ?_⟩
  calc (m.recommend u items n).count (i, s)
      ≤ (sortByScoreDesc (m.scored_items u items)).count (i, s) :=
        (pySliceTo_sublist _ _).count_le _
    _ = items.count i := keySorted

/-- Witness for C9: candidates `[4, 4, 9]` with identity content-based
scores; `(4, 4)` occurs twice in the scored list and its sorted version,
and at most twice in the `top_n = 3` output (in fact exactly twice:
the output is `[(9, 9), (4, 4), (4, 4)]`). -/
theorem recommend_no_dedup_witness :
    ((HybridRecommendationSystem_Custom.mk (U := Nat) (I := Nat) (ε := Unit)
        none (some fun _ i => Except.ok i) (0, 1)).scored_items
          0 [4, 4, 9]).count ((4 : Nat), (4 : Rat)) = [4, 4, 9].count 4 ∧
    (sortByScoreDesc ((HybridRecommendationSystem_Custom.mk
        (U := Nat) (I := Nat) (ε := Unit)
        none (some fun _ i => Except.ok i) (0, 1)).scored_items
          0 [4, 4, 9])).count ((4 : Nat), (4 : Rat)) = [4, 4, 9].count 4 ∧
    ((HybridRecommendationSystem_Custom.mk (U := Nat) (I := Nat) (ε := Unit)
        none (some fun _ i => Except.ok i) (0, 1)).recommend
          0 [4, 4, 9] 3).count ((4 : Nat), (4 : Rat)) ≤ [4, 4, 9].count 4 :=
  recommend_no_dedup
    (HybridRecommendationSystem_Custom.mk (U := Nat) (I := Nat) (ε := Unit)
      none (some fun _ i => Except.ok i) (0, 1)) 0 4 4 [4, 4, 9] 3
    (by simp [HybridRecommendationSystem_Custom.predict, bind, Except.bind,
      pure, Except.pure])

/-- C10: for a negative `top_n`, the slice `[:top_n]` removes the last
`|top_n|` entries from the descending-sorted survivor list (it is not
the top `|top_n|` items). -/
theorem recommend_negative_topn {U I ε : Type}
    (m : HybridRecommendationSystem_Custom U I ε) (u : U)
    (items : List I) (n : Int) (hn : n < 0) :
    m.recommend u items n
      = (sortByScoreDesc (m.scored_items u items)).rdrop (-n).toNat := by
  unfold HybridRecommendationSystem_Custom.recommend pySliceTo List.rdrop
  rw [if_neg (by omega)]
  congr 1
  omega

/-- Witness for C10: identity content-based scores on `[2, 9, 4]` and
`top_n = -1`: the result is the sorted list `[(9,9), (4,4), (2,2)]`
minus its last entry — `[(9,9), (4,4)]`, non-empty and different from
the `top_n = 1` result `[(9,9)]`. -/
theorem recommend_negative_topn_witness :
    (HybridRecommendationSystem_Custom.mk (U := Nat) (I := Nat) (ε := Unit)
        none (some fun _ i => Except.ok i) (0, 1)).recommend 0 [2, 9, 4] (-1)
      = (sortByScoreDesc ((HybridRecommendationSystem_Custom.mk
          (U := Nat) (I := Nat) (ε := Unit)
          none (some fun _ i => Except.ok i) (0, 1)).scored_items
            0 [2, 9, 4])).rdrop 1 ∧
    (HybridRecommendationSystem_Custom.mk (U := Nat) (I := Nat) (ε := Unit)
        none (some fun _ i => Except.ok i) (0, 1)).recommend 0 [2, 9, 4] (-1)
      = [(9, 9), (4, 4)] ∧
    (HybridRecommendationSystem_Custom.mk (U := Nat) (I := Nat) (ε := Unit)
        none (some fun _ i => Except.ok i) (0, 1)).recommend 0 [2, 9, 4] (-1)
      ≠ (HybridRecommendationSystem_Custom.mk (U := Nat) (I := Nat) (ε := Unit)
        none (some fun _ i => Except.ok i) (0, 1)).recommend 0 [2, 9, 4] 1 := by
  have h := recommend_negative_topn
    (HybridRecommendationSystem_Custom.mk (U := Nat) (I := Nat) (ε := Unit)
      none (some fun _ i => Except.ok i) (0, 1)) 0 [2, 9, 4] (-1) (by decide)
  have heval : (HybridRecommendationSystem_Custom.mk
      (U := Nat) (I := Nat) (ε := Unit)
      none (some fun _ i => Except.ok i) (0, 1)).recommend 0 [2, 9, 4] (-1)
      = [(9, 9), (4, 4)] := by
    unfold HybridRecommendationSystem_Custom.recommend
      HybridRecommendationSystem_Custom.scored_items
      HybridRecommendationSystem_Custom.predict sortByScoreDesc pySliceTo
    simp [bind, Except.bind, pure, Except.pure, List.mergeSort,
      List.splitInTwo, List.merge]
    norm_num
  have heval1 : (HybridRecommendationSystem_Custom.mk
      (U := Nat) (I := Nat) (ε := Unit)
      none (some fun _ i => Except.ok i) (0, 1)).recommend 0 [2, 9, 4] 1
      = [(9, 9)] := by
    unfold HybridRecommendationSystem_Custom.recommend
      HybridRecommendationSystem_Custom.scored_items
      HybridRecommendationSystem_Custom.predict sortByScoreDesc pySliceTo
    simp [bind, Except.bind, pure, Except.pure, List.mergeSort,
      List.splitInTwo, List.merge]
    norm_num
  refine ⟨h, heval, ?_⟩
  rw [heval, heval1]
  simp
